import Mathlib

/-!
Verification of `src/source/MIC/DCAM4/DCAM4SetProperty/mexFunction.cpp`,
the MEX binding `[] = DCAM4SetProperty(cameraHandle, propertyID, value)`
around the DCAM4 SDK entry point `dcamprop_setvalue`.

Shallow embedding notes (target platform is 64-bit Windows / MSVC, as
indicated by `stdafx.h`, `HDCAM` and the DCAM4 SDK, which is Windows-only):

* `unsigned long` is 32 bits under MSVC (LLP64).  The source reads the
  caller's uint64 handle slot through an `unsigned long*`
  (`mHandle = (unsigned long*)mxGetUint64s(prhs[0]); handle = (HDCAM)mHandle[0];`),
  so on little-endian x64 it obtains the LOW 32 bits of the 64-bit input,
  i.e. the input reduced modulo 2^32, zero-extended into the native handle.
* `mxGetScalar` returns the first element of a MATLAB array as a C `double`;
  we model double scalars as rationals (every finite double is rational and
  the shim only passes the value through, never computing with it).
* `(int32)` applied to a `double` truncates toward zero; the conversion is
  undefined when the truncated value is not representable in 32 bits, so the
  embedding returns `none` there.
* `DCAMERR` is a 32-bit signed enumeration; the SDK's `failed(err)` test is
  `int(err) < 0` (failure codes have the sign bit set, e.g. 0x80000001).
* `mexPrintf("Error = 0x%08lX\n...", error)` prints the 32-bit pattern of
  the error code as exactly 8 zero-padded uppercase hex digits.
* The function writes nothing into `plhs` and never reads `nlhs`/`nrhs`;
  out-of-bounds reads of `prhs` are undefined behaviour, modelled as `none`.
-/

/-- A MATLAB array argument, restricted to the shapes this binding touches:
a uint64 array (elements are naturals below 2^64) or a double scalar. -/
inductive MxArg where
  | uint64Arr (data : List Nat)
  | doubleScalar (v : Rat)
  deriving DecidableEq, Repr

/-- `mxGetUint64s`: yields the data of a uint64 array, NULL (here `none`)
for an array of any other class. -/
def mxGetUint64s : MxArg → Option (List Nat)
  | MxArg.uint64Arr data => some data
  | _ => none

/-- `mxGetScalar`: the first element of the array as a double.  Arrays of
classes other than double are outside the modelled domain. -/
def mxGetScalar : MxArg → Option Rat
  | MxArg.doubleScalar v => some v
  | _ => none

/-- Truncation of a rational toward zero, the rounding used by a C
floating-to-integer cast. -/
def ratTrunc (q : Rat) : Int :=
  if q < 0 then -Rat.floor (-q) else Rat.floor q

/-- The C cast `(int32)x` on a double `x`: truncate toward zero; undefined
(hence `none`) when the truncated value does not fit a signed 32-bit int. -/
def int32OfScalar (q : Rat) : Option Int :=
  let t := ratTrunc q
  if -2 ^ 31 ≤ t ∧ t < 2 ^ 31 then some t else none

/-- The DCAM SDK's `failed` test on a `DCAMERR` value (a 32-bit signed
enumeration): failure iff the code is negative as an int32. -/
def failed (e : Int) : Bool := e < 0

/-- One SDK entry-point invocation.  The binding only ever uses
`dcamprop_setvalue`; the other constructors exist so that "calls no other
SDK entry point" is a contentful statement about the trace. -/
inductive SDKEvent where
  | setvalue (handle : Nat) (propertyID : Int) (value : Rat)
  | devOpen (index : Int)
  | devClose (handle : Nat)
  deriving DecidableEq, Repr

/-- A mock SDK: the `DCAMERR` result code `dcamprop_setvalue` returns for
given (handle, propertyID, value) arguments. -/
def SDK : Type := Nat → Int → Rat → Int

/-- Uppercase hexadecimal digit for `n < 16`. -/
def hexChar (n : Nat) : Char :=
  if n < 10 then Char.ofNat (48 + n) else Char.ofNat (55 + n)

/-- The last `k` hexadecimal digits of `n`, most significant first,
zero-padded to width `k` (the behaviour of `%0kX` on a value below 16^k). -/
def hexN : Nat → Nat → List Char
  | 0, _ => []
  | k + 1, n => hexN k (n / 16) ++ [hexChar (n % 16)]

/-- `%08lX`: exactly eight zero-padded uppercase hex digits of a 32-bit
value. -/
def hex8 (n : Nat) : String := String.mk (hexN 8 n)

/-- Numeric value of an uppercase hex digit (spec-side reading function,
used to state that `hex8` really is a hexadecimal representation). -/
def hexVal (c : Char) : Nat :=
  if 65 ≤ c.toNat then c.toNat - 55 else c.toNat - 48

/-- Numeric value of an uppercase hex string, most significant digit
first. -/
def hexValue (s : String) : Nat :=
  s.data.foldl (fun a c => 16 * a + hexVal c) 0

/-- The diagnostic `mexPrintf` emits on the failure branch:
`"Error = 0x%08lX\ndcamprop_setvalue() failed.\n"` with the error code's
32-bit pattern substituted.  `%08lX` reads the varargs slot as a 32-bit
`unsigned long`, i.e. the two's-complement pattern `e mod 2^32`. -/
def failureDiagnostic (e : Int) : String :=
  "Error = 0x" ++ hex8 (e % 2 ^ 32).toNat ++ "\ndcamprop_setvalue() failed.\n"

/-- Everything `mexFunction` does that its environment can observe: the SDK
entry points it invoked (in order), the text it printed, and the final
contents of the caller-visible output slots `plhs`. -/
structure MexOutcome where
  trace : List SDKEvent
  printed : String
  plhs : List MxArg
  deriving DecidableEq, Repr

/-- The argument marshalling of `mexFunction` (lines 10-17 of the source):
`prhs[0]` is read through `mxGetUint64s` and then through an
`unsigned long*` (32-bit, little-endian low word, hence `% 2^32`), and is
zero-extended by the `(HDCAM)` cast; `prhs[1]` and `prhs[2]` are read with
`mxGetScalar`, the first cast to `int32`, the second kept as a double.
Any undefined access (missing `prhs` slot, NULL data pointer, empty array,
unrepresentable cast) is `none`. -/
def dcamArgs (prhs : List MxArg) : Option (Nat × Int × Rat) := do
  let arr0 ← prhs.get? 0
  let data ← mxGetUint64s arr0
  let mHandle0 ← data.get? 0
  let handle := mHandle0 % 2 ^ 32
  let arr1 ← prhs.get? 1
  let s1 ← mxGetScalar arr1
  let propertyID ← int32OfScalar s1
  let arr2 ← prhs.get? 2
  let propertyValue ← mxGetScalar arr2
  return (handle, propertyID, propertyValue)

/-- The whole of `mexFunction`: marshal the three inputs, call
`dcamprop_setvalue` once, print the diagnostic iff `failed(error)`, write
nothing to `plhs`, return nothing.  `nlhs` and `nrhs` are received but
never read, exactly as in the source. -/
def mexFunction (sdk : SDK) (nlhs : Int) (plhs : List MxArg)
    (nrhs : Int) (prhs : List MxArg) : Option MexOutcome :=
  match dcamArgs prhs with
  | none => none
  | some (handle, propertyID, propertyValue) =>
    let error := sdk handle propertyID propertyValue
    some { trace := [SDKEvent.setvalue handle propertyID propertyValue]
           printed := if failed error then failureDiagnostic error else ""
           plhs := plhs }

/-- Sequential composition of invocations.  The shim keeps no state between
calls (the source has no globals or statics), so the trace of a sequence is
the concatenation of the per-invocation traces. -/
def runSequence (sdk : SDK) : List (List MxArg) → List SDKEvent
  | [] => []
  | prhs :: rest =>
    (match mexFunction sdk 0 [] 0 prhs with
     | some o => o.trace
     | none => []) ++ runSequence sdk rest

/-! ### Helper lemmas -/

theorem hexVal_hexChar {d : Nat} (hd : d < 16) : hexVal (hexChar d) = d := by
  interval_cases d <;> decide

theorem hexN_length (k n : Nat) : (hexN k n).length = k := by
  induction k generalizing n with
  | zero => rfl
  | succ k ih => simp [hexN, ih]

theorem hexN_foldl (k n a : Nat) :
    (hexN k n).foldl (fun acc c => 16 * acc + hexVal c) a = a * 16 ^ k + n % 16 ^ k := by
  induction k generalizing n a with
  | zero => simp [hexN, Nat.mod_one]
  | succ k ih =>
    rw [hexN, List.foldl_append, ih]
    simp only [List.foldl_cons, List.foldl_nil]
    rw [hexVal_hexChar (Nat.mod_lt n (by norm_num))]
    rw [pow_succ, mul_comm (16 ^ k) 16, Nat.mod_mul]
    ring

theorem hex8_length (n : Nat) : (hex8 n).length = 8 := by
  simp [hex8, String.length, hexN_length]

/-- For any 32-bit value, reading the printed digits back as hexadecimal
recovers the value: `hex8` really is the zero-padded hexadecimal
representation. -/
theorem hexValue_hex8 {n : Nat} (hn : n < 2 ^ 32) : hexValue (hex8 n) = n := by
  have h16 : n < 4294967296 := lt_of_lt_of_le hn (by norm_num)
  simp [hexValue, hex8, hexN_foldl, Nat.mod_eq_of_lt h16]

theorem ratFloor_intCast (p : Int) : Rat.floor (p : Rat) = p := by
  rw [Rat.floor_def']; simp

theorem ratTrunc_intCast (p : Int) : ratTrunc (p : Rat) = p := by
  unfold ratTrunc
  split
  · rw [show -(p : Rat) = ((-p : Int) : Rat) by push_cast; ring, ratFloor_intCast, Int.neg_neg]
  · exact ratFloor_intCast p

theorem int32OfScalar_intCast {p : Int} (hlo : -2 ^ 31 ≤ p) (hhi : p < 2 ^ 31) :
    int32OfScalar (p : Rat) = some p := by
  unfold int32OfScalar
  rw [ratTrunc_intCast]
  exact if_pos ⟨hlo, hhi⟩

/-- Marshalling of a well-typed three-argument call: the handle slot is
reduced mod 2^32 by the 32-bit `unsigned long` read, the property
identifier is the `int32` truncation of the second scalar, the value is
passed through. -/
theorem dcamArgs_eq (h : Nat) (p : Int) (v : Rat) (hlo : -2 ^ 31 ≤ p) (hhi : p < 2 ^ 31) :
    dcamArgs [MxArg.uint64Arr [h], MxArg.doubleScalar (p : Rat), MxArg.doubleScalar v] =
      some (h % 2 ^ 32, p, v) := by
  show (int32OfScalar (p : Rat)).bind _ = _
  rw [int32OfScalar_intCast hlo hhi]
  rfl

/-- Evaluation of `mexFunction` once the argument marshalling succeeds:
one `dcamprop_setvalue` call, the diagnostic exactly when `failed`, `plhs`
untouched. -/
theorem mexFunction_eq (sdk : SDK) (nlhs nrhs : Int) (plhs : List MxArg)
    {prhs : List MxArg} {h : Nat} {p : Int} {v : Rat}
    (hargs : dcamArgs prhs = some (h, p, v)) :
    mexFunction sdk nlhs plhs nrhs prhs =
      some { trace := [SDKEvent.setvalue h p v]
             printed := if failed (sdk h p v) then failureDiagnostic (sdk h p v) else ""
             plhs := plhs } := by
  unfold mexFunction
  rw [hargs]

/-- With fewer than three inputs the marshalling dereferences a missing
`prhs` slot: the out-of-range branch of the embedding is taken. -/
theorem dcamArgs_short : ∀ {prhs : List MxArg}, prhs.length < 3 → dcamArgs prhs = none := by
  intro prhs hlen
  rcases prhs with _ | ⟨a, _ | ⟨b, _ | ⟨c, rest⟩⟩⟩
  · rfl
  · cases a with
    | uint64Arr data => cases data with
      | nil => rfl
      | cons x xs => rfl
    | doubleScalar v => rfl
  · cases a with
    | doubleScalar v => rfl
    | uint64Arr data =>
      cases data with
      | nil => rfl
      | cons x xs =>
        cases b with
        | uint64Arr d2 => rfl
        | doubleScalar s =>
          cases hsc : int32OfScalar s <;> simp [dcamArgs, hsc]
  · exact absurd hlen (by simp)

/-! ### Example inputs -/

/-- The spec's example input triple: handle `0x1A2B3C4D`, propertyId `8`,
value `1.0`, as a well-typed `prhs` list. -/
def examplePrhs : List MxArg :=
  [MxArg.uint64Arr [0x1A2B3C4D], MxArg.doubleScalar 8, MxArg.doubleScalar 1]

/-- A mock SDK whose `dcamprop_setvalue` always succeeds with code 0. -/
def sdkSuccess : SDK := fun _ _ _ => 0

/-- A mock SDK whose `dcamprop_setvalue` always fails with the code whose
32-bit pattern is `0x80000001` (as a signed int32 this is `-2147483647`). -/
def sdkFail : SDK := fun _ _ _ => -2147483647

/-! ### Claims -/

/-- C1 (counterexample): as stated, the claim is false.  With the input
handle `2^32` (a valid 64-bit unsigned value) and a mock SDK returning
success, the shim issues its single set-property call with handle `0`,
which is not numerically equal to the input: the `unsigned long*` read of
the uint64 slot drops the high 32 bits. -/
theorem c1_counterexample :
    mexFunction sdkSuccess 0 [] 3
        [MxArg.uint64Arr [2 ^ 32], MxArg.doubleScalar 8, MxArg.doubleScalar 1] =
      some { trace := [SDKEvent.setvalue 0 8 1], printed := "", plhs := [] } ∧
    (0 : Nat) ≠ 2 ^ 32 := by
  constructor
  · decide
  · decide

/-- C1 (amended): for every input triple whose handle is below `2^32` and
whose property identifier is an integer in signed 32-bit range, if the SDK
call returns success the shim invokes the SDK set-property operation
exactly once, with arguments type-converted but numerically equal to the
inputs, and emits no diagnostic output. -/
theorem c1_success_call (sdk : SDK) (nlhs nrhs : Int) (plhs : List MxArg)
    (h : Nat) (p : Int) (v : Rat)
    (hh : h < 2 ^ 32) (hlo : -2 ^ 31 ≤ p) (hhi : p < 2 ^ 31)
    (hsucc : failed (sdk h p v) = false) :
    mexFunction sdk nlhs plhs nrhs
        [MxArg.uint64Arr [h], MxArg.doubleScalar (p : Rat), MxArg.doubleScalar v] =
      some { trace := [SDKEvent.setvalue h p v], printed := "", plhs := plhs } := by
  have hargs :
      dcamArgs [MxArg.uint64Arr [h], MxArg.doubleScalar (p : Rat), MxArg.doubleScalar v] =
        some (h, p, v) := by
    rw [dcamArgs_eq h p v hlo hhi, Nat.mod_eq_of_lt hh]
  rw [mexFunction_eq sdk nlhs nrhs plhs hargs, hsucc]
  rfl

/-- Witness for C1 (amended) at the spec's example scenario:
`(handle = 0x1A2B3C4D, propertyId = 8, value = 1.0)` with a mock SDK
returning success 0 gives one recorded call and no console output. -/
theorem c1_success_call_witness :
    mexFunction sdkSuccess 0 [] 3
        [MxArg.uint64Arr [0x1A2B3C4D], MxArg.doubleScalar ((8 : Int) : Rat),
         MxArg.doubleScalar 1] =
      some { trace := [SDKEvent.setvalue 0x1A2B3C4D 8 1], printed := "", plhs := [] } :=
  c1_success_call sdkSuccess 0 3 [] 0x1A2B3C4D 8 1 (by norm_num) (by norm_num) (by norm_num)
    (by decide)

/-- C2: whenever the SDK call returns a failure code (a `DCAMERR` with the
sign bit set, which is what the source's `failed(error)` tests), the shim
prints exactly `Error = 0x`, the 8-hex-digit zero-padded representation of
the code's 32-bit pattern, a newline, `dcamprop_setvalue() failed.`, and a
newline.  The last two conjuncts say the digit string really is the
8-hex-digit zero-padded representation: it has length 8 and reads back as
the code's 32-bit value. -/
theorem c2_failure_diagnostic (sdk : SDK) (nlhs nrhs : Int) (plhs : List MxArg)
    (prhs : List MxArg) (h : Nat) (p : Int) (v : Rat)
    (hargs : dcamArgs prhs = some (h, p, v))
    (hfail : failed (sdk h p v) = true) :
    ∃ o, mexFunction sdk nlhs plhs nrhs prhs = some o ∧
      o.printed =
        "Error = 0x" ++ hex8 (sdk h p v % 2 ^ 32).toNat ++ "\ndcamprop_setvalue() failed.\n" ∧
      (hex8 (sdk h p v % 2 ^ 32).toNat).length = 8 ∧
      hexValue (hex8 (sdk h p v % 2 ^ 32).toNat) = (sdk h p v % 2 ^ 32).toNat := by
  refine ⟨_, mexFunction_eq sdk nlhs nrhs plhs hargs, ?_, hex8_length _, hexValue_hex8 ?_⟩
  · simp [hfail, failureDiagnostic]
  · have h1 := Int.emod_lt_of_pos (sdk h p v) (show (0 : Int) < 2 ^ 32 by norm_num)
    have h2 := Int.emod_nonneg (sdk h p v) (show (2 ^ 32 : Int) ≠ 0 by norm_num)
    omega

/-- Witness for C2 at the spec's example scenario: the same inputs with a
mock SDK returning the code `0x80000001` give console output exactly
`Error = 0x80000001\ndcamprop_setvalue() failed.\n`. -/
theorem c2_failure_diagnostic_witness :
    ∃ o, mexFunction sdkFail 0 [] 3 examplePrhs = some o ∧
      o.printed = "Error = 0x80000001\ndcamprop_setvalue() failed.\n" := by
  obtain ⟨o, h1, h2, -, -⟩ :=
    c2_failure_diagnostic sdkFail 0 3 [] examplePrhs 0x1A2B3C4D 8 1 (by decide) (by decide)
  exact ⟨o, h1, by rw [h2]; decide⟩

/-- C3: the shim never propagates an error to the caller.  For every SDK
result code the invocation completes normally with an outcome (never an
exception), and the caller-visible output slots are untouched; the outcome
type has no error channel at all. -/
theorem c3_no_error_propagation (sdk : SDK) (nlhs nrhs : Int) (plhs prhs : List MxArg)
    (h : Nat) (p : Int) (v : Rat) (hargs : dcamArgs prhs = some (h, p, v)) :
    ∃ o, mexFunction sdk nlhs plhs nrhs prhs = some o ∧ o.plhs = plhs :=
  ⟨_, mexFunction_eq sdk nlhs nrhs plhs hargs, rfl⟩

/-- Witness for C3 with a failing SDK: even when every call fails, the
invocation completes normally. -/
theorem c3_no_error_propagation_witness :
    ∃ o, mexFunction sdkFail 0 [] 3 examplePrhs = some o ∧ o.plhs = [] :=
  c3_no_error_propagation sdkFail 0 3 [] examplePrhs 0x1A2B3C4D 8 1 (by decide)

/-- C4 (counterexample): as stated, the claim is false.  The 64-bit input
handle `2^32 + 5` is marshalled to `5`, not to the numerically identical
value: the code reads the uint64 slot through a 32-bit `unsigned long*`,
dropping the high word. -/
theorem c4_counterexample :
    dcamArgs [MxArg.uint64Arr [2 ^ 32 + 5], MxArg.doubleScalar 8, MxArg.doubleScalar 1] =
      some (5, 8, 1) ∧ (5 : Nat) ≠ 2 ^ 32 + 5 := by
  constructor
  · decide
  · decide

/-- C4 (amended): the handle passed to the SDK call equals the 64-bit input
reduced modulo `2^32`; it is numerically identical to the input exactly
when the input is below `2^32`. -/
theorem c4_handle_conversion (sdk : SDK) (nlhs nrhs : Int) (plhs : List MxArg)
    (h : Nat) (p : Int) (v : Rat) (hlo : -2 ^ 31 ≤ p) (hhi : p < 2 ^ 31) :
    (∃ o, mexFunction sdk nlhs plhs nrhs
            [MxArg.uint64Arr [h], MxArg.doubleScalar (p : Rat), MxArg.doubleScalar v] =
          some o ∧ o.trace = [SDKEvent.setvalue (h % 2 ^ 32) p v]) ∧
    (h % 2 ^ 32 = h ↔ h < 2 ^ 32) := by
  refine ⟨⟨_, mexFunction_eq sdk nlhs nrhs plhs (dcamArgs_eq h p v hlo hhi), rfl⟩, ?_, ?_⟩
  · intro he
    rw [← he]
    exact Nat.mod_lt _ (by norm_num)
  · exact Nat.mod_eq_of_lt

/-- Witness for C4 (amended) at the truncating input `2^32 + 7`: the
recorded call carries handle `7`. -/
theorem c4_handle_conversion_witness :
    (∃ o, mexFunction sdkSuccess 0 [] 3
            [MxArg.uint64Arr [2 ^ 32 + 7], MxArg.doubleScalar ((8 : Int) : Rat),
             MxArg.doubleScalar 1] =
          some o ∧ o.trace = [SDKEvent.setvalue ((2 ^ 32 + 7) % 2 ^ 32) 8 1]) ∧
    ((2 ^ 32 + 7) % 2 ^ 32 = 2 ^ 32 + 7 ↔ 2 ^ 32 + 7 < 2 ^ 32) :=
  c4_handle_conversion sdkSuccess 0 3 [] (2 ^ 32 + 7) 8 1 (by norm_num) (by norm_num)

/-- C5: the property identifier passed to the SDK call is the input scalar
truncated toward zero to a signed 32-bit integer; in particular, for an
input representing an integer `p` in signed 32-bit range the passed
identifier equals `p` itself. -/
theorem c5_propertyId_conversion (sdk : SDK) (nlhs nrhs : Int) (plhs : List MxArg)
    (h : Nat) (p : Int) (v : Rat) (hlo : -2 ^ 31 ≤ p) (hhi : p < 2 ^ 31) :
    ratTrunc (p : Rat) = p ∧
    int32OfScalar (p : Rat) = some p ∧
    ∃ o, mexFunction sdk nlhs plhs nrhs
            [MxArg.uint64Arr [h], MxArg.doubleScalar (p : Rat), MxArg.doubleScalar v] =
          some o ∧ o.trace = [SDKEvent.setvalue (h % 2 ^ 32) p v] :=
  ⟨ratTrunc_intCast p, int32OfScalar_intCast hlo hhi,
    _, mexFunction_eq sdk nlhs nrhs plhs (dcamArgs_eq h p v hlo hhi), rfl⟩

/-- Witness for C5 at propertyId `8` (the spec's example code): the call
carries identifier exactly `8`. -/
theorem c5_propertyId_conversion_witness :
    ratTrunc ((8 : Int) : Rat) = 8 ∧
    int32OfScalar ((8 : Int) : Rat) = some 8 ∧
    ∃ o, mexFunction sdkSuccess 0 [] 3
            [MxArg.uint64Arr [0x1A2B3C4D], MxArg.doubleScalar ((8 : Int) : Rat),
             MxArg.doubleScalar 1] =
          some o ∧ o.trace = [SDKEvent.setvalue (0x1A2B3C4D % 2 ^ 32) 8 1] :=
  c5_propertyId_conversion sdkSuccess 0 3 [] 0x1A2B3C4D 8 1 (by norm_num) (by norm_num)

/-- C6: on both the success and the failure path the shim produces no
output value: whatever the SDK result code, the caller-visible output
slots `plhs` are returned exactly as they were. -/
theorem c6_no_output_value (sdk : SDK) (nlhs nrhs : Int) (plhs prhs : List MxArg)
    (o : MexOutcome) (ho : mexFunction sdk nlhs plhs nrhs prhs = some o) :
    o.plhs = plhs := by
  unfold mexFunction at ho
  cases hd : dcamArgs prhs with
  | none => rw [hd] at ho; cases ho
  | some t =>
    obtain ⟨h, p, v⟩ := t
    rw [hd] at ho
    cases ho
    rfl

/-- Witness for C6 on the failure path with non-empty output slots: the
slots come back unchanged. -/
theorem c6_no_output_value_witness :
    ({ trace := [SDKEvent.setvalue 0x1A2B3C4D 8 1],
       printed := "Error = 0x80000001\ndcamprop_setvalue() failed.\n",
       plhs := [MxArg.uint64Arr [9]] } : MexOutcome).plhs = [MxArg.uint64Arr [9]] :=
  c6_no_output_value sdkFail 0 3 [MxArg.uint64Arr [9]] examplePrhs _ (by decide)

/-- C7: regardless of the SDK result code, every invocation issues exactly
one SDK call (never a retry), and no state is retained between
invocations: two successive invocations with the same arguments issue two
independent SDK calls with identical arguments. -/
theorem c7_single_call_no_retry (sdk : SDK) (prhs : List MxArg)
    (h : Nat) (p : Int) (v : Rat) (hargs : dcamArgs prhs = some (h, p, v)) :
    (∀ (nlhs nrhs : Int) (plhs : List MxArg) (o : MexOutcome),
        mexFunction sdk nlhs plhs nrhs prhs = some o →
          o.trace = [SDKEvent.setvalue h p v]) ∧
    runSequence sdk [prhs, prhs] =
      [SDKEvent.setvalue h p v, SDKEvent.setvalue h p v] := by
  have hcall : ∀ (nlhs nrhs : Int) (plhs : List MxArg) (o : MexOutcome),
      mexFunction sdk nlhs plhs nrhs prhs = some o →
        o.trace = [SDKEvent.setvalue h p v] := by
    intro nlhs nrhs plhs o ho
    rw [mexFunction_eq sdk nlhs nrhs plhs hargs] at ho
    cases ho
    rfl
  refine ⟨hcall, ?_⟩
  show (match mexFunction sdk 0 [] 0 prhs with
        | some o => o.trace
        | none => []) ++
      ((match mexFunction sdk 0 [] 0 prhs with
        | some o => o.trace
        | none => []) ++ []) = _
  rw [mexFunction_eq sdk 0 0 [] hargs]
  simp

/-- Witness for C7: two invocations on the spec's example input under an
always-failing SDK record exactly two identical calls. -/
theorem c7_single_call_no_retry_witness :
    runSequence sdkFail [examplePrhs, examplePrhs] =
      [SDKEvent.setvalue 0x1A2B3C4D 8 1, SDKEvent.setvalue 0x1A2B3C4D 8 1] :=
  (c7_single_call_no_retry sdkFail examplePrhs 0x1A2B3C4D 8 1 (by decide)).2

/-- C8: the shim's entire SDK interaction is the single set-property call:
its trace contains no `devOpen`, no `devClose`, and no second event, so in
particular the handle's session is never closed or otherwise acted on, and
no resource is acquired or released. -/
theorem c8_handle_read_only (sdk : SDK) (nlhs nrhs : Int) (plhs prhs : List MxArg)
    (h : Nat) (p : Int) (v : Rat) (hargs : dcamArgs prhs = some (h, p, v))
    (o : MexOutcome) (ho : mexFunction sdk nlhs plhs nrhs prhs = some o) :
    o.trace = [SDKEvent.setvalue h p v] ∧
    ∀ e ∈ o.trace, ∃ a b c, e = SDKEvent.setvalue a b c := by
  rw [mexFunction_eq sdk nlhs nrhs plhs hargs] at ho
  cases ho
  refine ⟨rfl, ?_⟩
  intro e he
  simp only [List.mem_singleton] at he
  exact ⟨h, p, v, he⟩

/-- Witness for C8 at the spec's example input: the trace is the single
set-property event. -/
theorem c8_handle_read_only_witness :
    ({ trace := [SDKEvent.setvalue 0x1A2B3C4D 8 1], printed := "",
       plhs := [] } : MexOutcome).trace = [SDKEvent.setvalue 0x1A2B3C4D 8 1] :=
  (c8_handle_read_only sdkSuccess 0 3 [] examplePrhs 0x1A2B3C4D 8 1 (by decide) _
    (by decide)).1

/-- C9 (implicit): the shim never inspects the input-argument count — its
behaviour is the same for every value of `nrhs` — and it unconditionally
reads the first three `prhs` slots, so for every invocation with fewer
than three inputs the out-of-range branch of the Option-returning
embedding of the input reads is taken. -/
theorem c9_unchecked_argument_count :
    (∀ (sdk : SDK) (nlhs : Int) (plhs : List MxArg) (nrhs nrhs' : Int) (prhs : List MxArg),
        mexFunction sdk nlhs plhs nrhs prhs = mexFunction sdk nlhs plhs nrhs' prhs) ∧
    (∀ (sdk : SDK) (nlhs : Int) (plhs : List MxArg) (nrhs : Int) (prhs : List MxArg),
        prhs.length < 3 → mexFunction sdk nlhs plhs nrhs prhs = none) := by
  refine ⟨fun _ _ _ _ _ _ => rfl, ?_⟩
  intro sdk nlhs plhs nrhs prhs hlen
  unfold mexFunction
  rw [dcamArgs_short hlen]

/-- C10 (implicit): the shim is deterministic.  Two runs on equal input
triples whose SDKs return the same result code at the called arguments
have identical observable behaviour: same single SDK call, same diagnostic
text, same output slots. -/
theorem c10_deterministic (sdk1 sdk2 : SDK) (nlhs nrhs : Int) (plhs prhs : List MxArg)
    (h : Nat) (p : Int) (v : Rat) (hargs : dcamArgs prhs = some (h, p, v))
    (hagree : sdk1 h p v = sdk2 h p v) :
    mexFunction sdk1 nlhs plhs nrhs prhs = mexFunction sdk2 nlhs plhs nrhs prhs := by
  rw [mexFunction_eq sdk1 nlhs nrhs plhs hargs, mexFunction_eq sdk2 nlhs nrhs plhs hargs,
    hagree]

/-- Witness for C10: two different mock SDKs that agree on the result code
at the example arguments produce identical outcomes. -/
theorem c10_deterministic_witness :
    mexFunction sdkSuccess 0 [] 3 examplePrhs =
      mexFunction (fun a _ _ => if a = 0x1A2B3C4D then 0 else -1) 0 [] 3 examplePrhs :=
  c10_deterministic sdkSuccess (fun a _ _ => if a = 0x1A2B3C4D then 0 else -1) 0 3 []
    examplePrhs 0x1A2B3C4D 8 1 (by decide) (by decide)

/-- Witness for C9: a one-argument invocation takes the out-of-range
branch. -/
theorem c9_unchecked_argument_count_witness :
    mexFunction sdkSuccess 0 [] 1 [MxArg.uint64Arr [5]] = none :=
  c9_unchecked_argument_count.2 sdkSuccess 0 [] 1 [MxArg.uint64Arr [5]] (by decide)
